import Mathlib

/-!
Verification of the async ICMP socket adapter (`embassy-net/src/icmp.rs`).

The adapter bridges a polling network interface (smoltcp) into suspendable
operations.  The adapter code itself (`poll_recv`, `poll_send`, `flush`, the
`Drop` impl, the per-socket `with_mut` wrapper) is embedded directly from the
source.  The external collaborators — the stack's exclusive-access scope and
the per-socket non-blocking primitives of the interface core — are not part of
the given sources, so they are modelled from the specification of the external
interfaces (spec sections 4.1, 6 and 7): a socket holds queues of inbound and
outbound datagrams, `recv_slice` dequeues one datagram (reporting `Exhausted`
when none is queued and `Truncated`, after discarding, when it does not fit),
`send_slice` reports `Unaddressable` for an unresolvable destination and
`BufferFull` when the outbound storage is full, and `send_queue` reports the
outbound queue depth.

Rust `Poll` is embedded as an explicit `Poll` type; a Rust panic
(`todo!`, `expect`, `unimplemented!`, or an invalid handle) is embedded as the
`none` result of an `Option`-valued poll function.  State is passed
explicitly: a poll function takes the shared stack state (`StackInner`) and
returns it updated.
-/

/-- IP addresses are kept abstract: an opaque identifier. -/
abbrev IpAddress := Nat

/-- A waker is kept abstract: an opaque identifier for the task callback. -/
abbrev Waker := Nat

/-- Opaque index identifying one socket's storage slot in the registry. -/
abbrev SocketHandle := Nat

/-- An address that may be absent, plus a port (smoltcp `IpListenEndpoint`). -/
structure IpListenEndpoint where
  addr : Option IpAddress
  port : Nat
  deriving DecidableEq, Repr

/-- Endpoint configuration of an ICMP socket: unspecified, identifier-only,
or address+port. -/
inductive Endpoint where
  | Unspecified : Endpoint
  | Ident : Nat → Endpoint
  | Udp : IpListenEndpoint → Endpoint
  deriving DecidableEq, Repr

/-- Modelled from the spec: the endpoint is "specified" exactly when it is not
the *unspecified* variant ("no address configured"); this is the send-side
precondition check of spec section 4.4. -/
def Endpoint.is_specified : Endpoint → Bool
  | Endpoint.Unspecified => false
  | Endpoint.Ident _ => true
  | Endpoint.Udp _ => true

namespace icmp

/-- Low-level receive-side conditions of the interface core (spec section 6). -/
inductive RecvError where
  | Exhausted : RecvError
  | Truncated : RecvError
  deriving DecidableEq, Repr

/-- Low-level send-side conditions of the interface core (spec section 6). -/
inductive SendError where
  | BufferFull : SendError
  | Unaddressable : SendError
  deriving DecidableEq, Repr

/-- One queued datagram: payload bytes plus the per-datagram address metadata. -/
structure Datagram where
  payload : List Nat
  addr : IpAddress
  deriving DecidableEq, Repr

/-- Modelled from the spec: the per-socket storage the registry slot owns —
ring-buffered inbound and outbound datagram queues plus the two single-slot
waker registrations (spec sections 3, 5 and 6).  `tx_capacity` bounds how many
datagrams the outbound storage holds. -/
structure Socket where
  rx_queue : List Datagram
  tx_queue : List Datagram
  tx_capacity : Nat
  recv_waker : Option Waker
  send_waker : Option Waker
  deriving DecidableEq, Repr

/-- Modelled from the spec: the non-blocking receive primitive
`recv_into(buffer) -> Result<(len, source_addr), {Exhausted|Truncated}>`.
With no datagram queued it reports `Exhausted` and leaves the socket
unchanged; otherwise it dequeues the head datagram, reporting its length and
source address when it fits in a buffer of capacity `cap` and `Truncated`
(the datagram already discarded) when it does not (spec sections 4.3 and 7). -/
def Socket.recv_slice (s : Socket) (cap : Nat) :
    Except RecvError (Nat × IpAddress) × Socket :=
  match s.rx_queue with
  | [] => (Except.error RecvError.Exhausted, s)
  | d :: rest =>
      if d.payload.length ≤ cap then
        (Except.ok (d.payload.length, d.addr), { s with rx_queue := rest })
      else
        (Except.error RecvError.Truncated, { s with rx_queue := rest })

/-- Modelled from the spec: the non-blocking send primitive
`send_from(buffer, dest_addr) -> Result<(), {BufferFull|Unaddressable}>`.
An unresolvable destination reports `Unaddressable`; full outbound storage
reports `BufferFull`; otherwise the entire buffer is enqueued as one outbound
datagram (spec sections 4.4, 6 and 7).  `addressable` is the interface's
resolvability of a destination address. -/
def Socket.send_slice (s : Socket) (addressable : IpAddress → Bool)
    (buf : List Nat) (dst : IpAddress) : Except SendError Socket :=
  if addressable dst = false then
    Except.error SendError.Unaddressable
  else if s.tx_capacity ≤ s.tx_queue.length then
    Except.error SendError.BufferFull
  else
    Except.ok { s with tx_queue := s.tx_queue ++ [⟨buf, dst⟩] }

/-- Modelled from the spec: `outbound_queue_depth() -> usize`, the number of
datagrams still queued in the transmit buffer (spec sections 4.5 and 6). -/
def Socket.send_queue (s : Socket) : Nat := s.tx_queue.length

/-- Modelled from the spec: `register_recv_waker(w)` stores `w` in the
single-slot receive waker registration, superseding any earlier one. -/
def Socket.register_recv_waker (s : Socket) (w : Waker) : Socket :=
  { s with recv_waker := some w }

/-- Modelled from the spec: `register_send_waker(w)` stores `w` in the
single-slot send waker registration, superseding any earlier one. -/
def Socket.register_send_waker (s : Socket) (w : Waker) : Socket :=
  { s with send_waker := some w }

end icmp

/-- The interface state the adapter can reach through the access scope; only
destination resolvability is relevant to the adapter. -/
structure Interface where
  addressable : IpAddress → Bool

/-- The socket registry: storage keyed by handle. -/
def SocketSet := SocketHandle → Option icmp.Socket

/-- Registry lookup (`get_mut(handle)`). -/
def SocketSet.get (ss : SocketSet) (h : SocketHandle) : Option icmp.Socket :=
  ss h

/-- Write back the (mutated) socket stored under `h`. -/
def SocketSet.set (ss : SocketSet) (h : SocketHandle) (s : icmp.Socket) :
    SocketSet :=
  fun h2 => if h2 = h then some s else ss h2

/-- Registry removal (`remove(handle)`): the slot keyed by `h` is vacated. -/
def SocketSet.remove (ss : SocketSet) (h : SocketHandle) : SocketSet :=
  fun h2 => if h2 = h then none else ss h2

/-- The shared stack state behind the exclusive-access scope: socket registry,
handle allocator, interface, plus two instrumentation counters — `wake_count`
counts driver notifications (`i.waker.wake()`), `access_count` counts
exclusive-access calls (`stack.with_mut`). -/
structure StackInner where
  sockets : SocketSet
  next_handle : SocketHandle
  iface : Interface
  wake_count : Nat
  access_count : Nat

/-- Modelled from the spec: `Stack::with_mut(f)` runs `f` synchronously with
exclusive access to the shared state (spec section 4.1).  `access_count`
records that one exclusive-access call took place. -/
def Stack.with_mut {R : Type} (st : StackInner) (f : StackInner → R × StackInner) : R × StackInner :=
  ((f st).1, { (f st).2 with access_count := (f st).2.access_count + 1 })

/-- The adapter (`IcmpSocket<'a>`): a handle into the registry plus the
endpoint configuration.  The stack reference is passed explicitly as the
`StackInner` state of each operation. -/
structure IcmpSocket where
  handle : SocketHandle
  endpoint : Endpoint
  deriving DecidableEq, Repr

/-- `IcmpSocket::new`: registers a new socket backed by fresh empty storage
into the registry under one exclusive-access call and binds the adapter to
the resulting handle. -/
def IcmpSocket.new (st : StackInner) (endpoint : Endpoint) (tx_capacity : Nat) :
    IcmpSocket × StackInner :=
  let r := Stack.with_mut st (fun i =>
    (i.next_handle,
     { i with
        sockets := SocketSet.set i.sockets i.next_handle
          { rx_queue := [], tx_queue := [], tx_capacity := tx_capacity,
            recv_waker := none, send_waker := none },
        next_handle := i.next_handle + 1 }))
  (⟨r.1, endpoint⟩, r.2)

/-- The adapter's private `with_mut`: one exclusive-access call that looks up
this adapter's socket by handle, runs `f` on it and the interface, writes the
socket back and notifies the driver.  An invalid handle panics in the source
(`get_mut`), embedded as `none`. -/
def IcmpSocket.with_mut {R : Type} (sock : IcmpSocket) (st : StackInner)
    (f : icmp.Socket → Interface → R × icmp.Socket) : Option (R × StackInner) :=
  match SocketSet.get st.sockets sock.handle with
  | none => none
  | some s =>
      some (Stack.with_mut st (fun i =>
        ((f s i.iface).1,
         { i with
            sockets := SocketSet.set i.sockets sock.handle (f s i.iface).2,
            wake_count := i.wake_count + 1 })))

/-- Rust `core::task::Poll`. -/
inductive Poll (α : Type) where
  | Ready : α → Poll α
  | Pending : Poll α
  deriving DecidableEq, Repr

/-- The adapter's public error type (`RecvError` in the source): `Exhausted`
and `Truncated`. -/
inductive RecvError where
  | Exhausted : RecvError
  | Truncated : RecvError
  deriving DecidableEq, Repr

/-- `IcmpSocket::poll_recv`: one non-blocking receive attempt into a buffer of
capacity `cap`.  Success and `Truncated` are returned `Ready`; `Exhausted`
registers the waker and returns `Pending`. -/
def IcmpSocket.poll_recv (sock : IcmpSocket) (st : StackInner) (cap : Nat)
    (w : Waker) : Option (Poll (Except RecvError (Nat × IpAddress)) × StackInner) :=
  sock.with_mut st (fun s _ =>
    match s.recv_slice cap with
    | (Except.ok n, s2) => (Poll.Ready (Except.ok n), s2)
    | (Except.error icmp.RecvError.Truncated, s2) =>
        (Poll.Ready (Except.error RecvError.Truncated), s2)
    | (Except.error icmp.RecvError.Exhausted, s2) =>
        (Poll.Pending, s2.register_recv_waker w))

/-- The destination-resolution `match` inside `poll_send`.  The `Unspecified`
and `Ident` arms are `todo!()` and the `Udp` arm unwraps the optional address
with `expect`; each of those panics is embedded as `none`. -/
def resolve_dst : Endpoint → Option IpAddress
  | Endpoint.Unspecified => none
  | Endpoint.Ident _ => none
  | Endpoint.Udp le => le.addr

/-- `IcmpSocket::poll_send`: one non-blocking attempt to enqueue `buf`.  An
unspecified endpoint returns `Pending` immediately (before any interface
access); then the destination is resolved (panicking paths give `none`);
`BufferFull` registers the waker and returns `Pending`; the `Unaddressable`
arm is `unimplemented!()`, embedded as `none`. -/
def IcmpSocket.poll_send (sock : IcmpSocket) (st : StackInner) (buf : List Nat)
    (w : Waker) : Option (Poll Unit × StackInner) :=
  if sock.endpoint.is_specified = false then
    some (Poll.Pending, st)
  else
    match resolve_dst sock.endpoint with
    | none => none
    | some dst =>
        match sock.with_mut st (fun s i =>
          match s.send_slice i.addressable buf dst with
          | Except.ok s2 => (some (Poll.Ready ()), s2)
          | Except.error icmp.SendError.BufferFull =>
              (some Poll.Pending, s.register_send_waker w)
          | Except.error icmp.SendError.Unaddressable => (none, s)) with
        | none => none
        | some (none, _) => none
        | some (some p, st2) => some (p, st2)

/-- One poll of the `flush` future's body: `Ready` when the outbound queue
depth is zero, otherwise the send waker is registered and the poll is
`Pending`. -/
def IcmpSocket.poll_flush (sock : IcmpSocket) (st : StackInner) (w : Waker) :
    Option (Poll Unit × StackInner) :=
  sock.with_mut st (fun s _ =>
    if s.send_queue = 0 then (Poll.Ready (), s)
    else (Poll.Pending, s.register_send_waker w))

/-- The `Drop` impl: one exclusive-access call removing this adapter's handle
from the registry. -/
def IcmpSocket.drop (sock : IcmpSocket) (st : StackInner) : StackInner :=
  (Stack.with_mut st (fun i =>
    ((), { i with sockets := SocketSet.remove i.sockets sock.handle }))).2

/-- `n + 1` successive polls of `poll_send`, each resumed from the state the
previous poll left behind, stopping early at the first poll that is not
`Pending` (models the `send` future being re-polled by the scheduler). -/
def IcmpSocket.poll_send_repeat (sock : IcmpSocket) (buf : List Nat)
    (w : Waker) : Nat → StackInner → Option (Poll Unit × StackInner)
  | 0, st => sock.poll_send st buf w
  | n + 1, st =>
      match sock.poll_send st buf w with
      | some (Poll.Pending, st2) => sock.poll_send_repeat buf w n st2
      | r => r

/-- Recognizer for a poll result that surfaces `Exhausted` as a `Ready` error
to the caller. -/
def is_ready_exhausted :
    Option (Poll (Except RecvError (Nat × IpAddress)) × StackInner) → Bool
  | some (Poll.Ready (Except.error RecvError.Exhausted), _) => true
  | _ => false

/-- A concrete example socket: two queued inbound datagrams (payloads of
3 bytes and 1 byte), empty outbound queue with room for two datagrams. -/
def sock1 : icmp.Socket :=
  { rx_queue := [⟨[0, 1, 2], 7⟩, ⟨[5], 9⟩], tx_queue := [], tx_capacity := 2,
    recv_waker := none, send_waker := none }

/-- A concrete example socket with nothing inbound and a full transmit
buffer. -/
def sockE : icmp.Socket :=
  { rx_queue := [], tx_queue := [⟨[1], 4⟩], tx_capacity := 1,
    recv_waker := none, send_waker := none }

/-- Concrete stack state: `sock1` registered under handle 0, every address
resolvable. -/
def st1 : StackInner :=
  { sockets := fun h2 => if h2 = 0 then some sock1 else none,
    next_handle := 1, iface := { addressable := fun _ => true },
    wake_count := 0, access_count := 0 }

/-- Concrete stack state: `sockE` registered under handle 0, every address
resolvable. -/
def stE : StackInner :=
  { sockets := fun h2 => if h2 = 0 then some sockE else none,
    next_handle := 1, iface := { addressable := fun _ => true },
    wake_count := 0, access_count := 0 }

/-- Concrete stack state like `st1` but with no address resolvable. -/
def stN : StackInner :=
  { sockets := fun h2 => if h2 = 0 then some sock1 else none,
    next_handle := 1, iface := { addressable := fun _ => false },
    wake_count := 0, access_count := 0 }

/-- Looking a handle up right after writing a socket under it yields that
socket. -/
theorem SocketSet.get_set_self (ss : SocketSet) (h : SocketHandle)
    (s : icmp.Socket) : SocketSet.get (SocketSet.set ss h s) h = some s := by
  simp [SocketSet.get, SocketSet.set]

/-- Helper: `poll_recv` on a socket whose head inbound datagram fits the
buffer returns it `Ready` and dequeues exactly that datagram. -/
theorem poll_recv_success_eq
    (sock : IcmpSocket) (st : StackInner) (cap : Nat) (w : Waker)
    (s : icmp.Socket) (d : icmp.Datagram) (rest : List icmp.Datagram)
    (hs : SocketSet.get st.sockets sock.handle = some s)
    (hq : s.rx_queue = d :: rest)
    (hfit : d.payload.length ≤ cap) :
    sock.poll_recv st cap w
      = some (Poll.Ready (Except.ok (d.payload.length, d.addr)),
          { st with
              sockets := SocketSet.set st.sockets sock.handle
                { s with rx_queue := rest },
              wake_count := st.wake_count + 1,
              access_count := st.access_count + 1 }) := by
  simp [IcmpSocket.poll_recv, IcmpSocket.with_mut, hs, Stack.with_mut,
    icmp.Socket.recv_slice, hq, hfit]

/-- Claim C1: with an unspecified endpoint, every `poll_send` returns
`Poll.Pending` with the stack state completely untouched — no waker is
registered and the interface is never accessed — and repeated polling stays
`Pending` forever with no forward progress. -/
theorem c1_unspecified_endpoint_send_pending
    (sock : IcmpSocket) (st : StackInner) (buf : List Nat) (w : Waker)
    (h : sock.endpoint = Endpoint.Unspecified) :
    sock.poll_send st buf w = some (Poll.Pending, st) ∧
    ∀ n, sock.poll_send_repeat buf w n st = some (Poll.Pending, st) := by
  have hstep : sock.poll_send st buf w = some (Poll.Pending, st) := by
    simp [IcmpSocket.poll_send, h, Endpoint.is_specified]
  refine ⟨hstep, fun n => ?_⟩
  induction n with
  | zero => simpa [IcmpSocket.poll_send_repeat] using hstep
  | succ k ih =>
      simp only [IcmpSocket.poll_send_repeat, hstep]
      exact ih

/-- Witness for C1 at a concrete socket and state. -/
theorem c1_witness :
    (⟨0, Endpoint.Unspecified⟩ : IcmpSocket).endpoint = Endpoint.Unspecified ∧
    IcmpSocket.poll_send ⟨0, Endpoint.Unspecified⟩ st1 [9] 3
      = some (Poll.Pending, st1) :=
  ⟨rfl,
   (c1_unspecified_endpoint_send_pending ⟨0, Endpoint.Unspecified⟩ st1 [9] 3
     rfl).1⟩

/-- Claim C2: when the head inbound datagram does not fit the caller's
buffer, `poll_recv` returns `Ready (error Truncated)` immediately (never
`Pending`, never `Exhausted`), the oversized datagram is discarded, and a
subsequent receive with a sufficient buffer succeeds on the next datagram. -/
theorem c2_truncated_terminal
    (sock : IcmpSocket) (st : StackInner) (cap cap2 : Nat) (w w2 : Waker)
    (s : icmp.Socket) (d d2 : icmp.Datagram) (rest : List icmp.Datagram)
    (hs : SocketSet.get st.sockets sock.handle = some s)
    (hq : s.rx_queue = d :: d2 :: rest)
    (hbig : cap < d.payload.length)
    (hfit : d2.payload.length ≤ cap2) :
    ∃ st2,
      sock.poll_recv st cap w
        = some (Poll.Ready (Except.error RecvError.Truncated), st2) ∧
      SocketSet.get st2.sockets sock.handle
        = some { s with rx_queue := d2 :: rest } ∧
      ∃ st3, sock.poll_recv st2 cap2 w2
          = some (Poll.Ready (Except.ok (d2.payload.length, d2.addr)), st3) := by
  have hnofit : ¬ d.payload.length ≤ cap := by omega
  refine ⟨{ st with
      sockets := SocketSet.set st.sockets sock.handle
        { s with rx_queue := d2 :: rest },
      wake_count := st.wake_count + 1,
      access_count := st.access_count + 1 }, ?_, ?_, ?_⟩
  · simp [IcmpSocket.poll_recv, IcmpSocket.with_mut, hs, Stack.with_mut,
      icmp.Socket.recv_slice, hq, hnofit]
  · exact SocketSet.get_set_self _ _ _
  · exact ⟨_, poll_recv_success_eq sock _ cap2 w2 _ d2 rest
      (SocketSet.get_set_self _ _ _) rfl hfit⟩

/-- Witness for C2 at a concrete socket and state: a 3-byte datagram into a
1-byte buffer, then a 1-byte datagram into a 1-byte buffer. -/
theorem c2_witness :
    (1 : Nat) < 3 ∧
    ∃ st2,
      IcmpSocket.poll_recv ⟨0, Endpoint.Unspecified⟩ st1 1 8
        = some (Poll.Ready (Except.error RecvError.Truncated), st2) ∧
      SocketSet.get st2.sockets 0
        = some { sock1 with rx_queue := [⟨[5], 9⟩] } ∧
      ∃ st3, IcmpSocket.poll_recv ⟨0, Endpoint.Unspecified⟩ st2 1 8
          = some (Poll.Ready (Except.ok (1, 9)), st3) :=
  ⟨by decide,
   c2_truncated_terminal ⟨0, Endpoint.Unspecified⟩ st1 1 1 8 8 sock1
     ⟨[0, 1, 2], 7⟩ ⟨[5], 9⟩ [] rfl rfl (by decide) (by decide)⟩

/-- Claim C3: when the destination resolves but the interface reports it
unaddressable, `poll_send` hits the `unimplemented!()` arm — embedded as the
`none` (panic) outcome — so no typed, non-panicking error reaches the
caller. -/
theorem c3_unaddressable_unimplemented
    (sock : IcmpSocket) (st : StackInner) (buf : List Nat) (w : Waker)
    (a : IpAddress) (p : Nat) (s : icmp.Socket)
    (he : sock.endpoint = Endpoint.Udp ⟨some a, p⟩)
    (hs : SocketSet.get st.sockets sock.handle = some s)
    (hna : st.iface.addressable a = false) :
    sock.poll_send st buf w = none := by
  simp [IcmpSocket.poll_send, he, Endpoint.is_specified, resolve_dst,
    IcmpSocket.with_mut, hs, Stack.with_mut, icmp.Socket.send_slice, hna]

/-- Witness for C3 at a concrete socket and a state whose interface resolves
no address. -/
theorem c3_witness :
    stN.iface.addressable 7 = false ∧
    IcmpSocket.poll_send ⟨0, Endpoint.Udp ⟨some 7, 1⟩⟩ stN [9] 3 = none :=
  ⟨rfl,
   c3_unaddressable_unimplemented ⟨0, Endpoint.Udp ⟨some 7, 1⟩⟩ stN [9] 3 7 1
     sock1 rfl rfl rfl⟩

/-- Claim C4: one poll of `flush` returns `Ready ()` exactly when the
outbound queue depth is observed at zero; with a nonzero depth it registers
the send waker and returns `Pending`, so flush cannot complete until every
queued datagram has drained. -/
theorem c4_flush_ready_iff_drained
    (sock : IcmpSocket) (st : StackInner) (w : Waker) (s : icmp.Socket)
    (hs : SocketSet.get st.sockets sock.handle = some s) :
    (s.send_queue = 0 →
      ∃ st2, sock.poll_flush st w = some (Poll.Ready (), st2)) ∧
    (s.send_queue ≠ 0 →
      ∃ st2, sock.poll_flush st w = some (Poll.Pending, st2) ∧
        SocketSet.get st2.sockets sock.handle
          = some (s.register_send_waker w)) := by
  constructor
  · intro h0
    refine ⟨{ st with
        sockets := SocketSet.set st.sockets sock.handle s,
        wake_count := st.wake_count + 1,
        access_count := st.access_count + 1 }, ?_⟩
    simp [IcmpSocket.poll_flush, IcmpSocket.with_mut, hs, Stack.with_mut, h0]
  · intro hne
    refine ⟨{ st with
        sockets := SocketSet.set st.sockets sock.handle
          (s.register_send_waker w),
        wake_count := st.wake_count + 1,
        access_count := st.access_count + 1 }, ?_, ?_⟩
    · simp [IcmpSocket.poll_flush, IcmpSocket.with_mut, hs, Stack.with_mut,
        hne]
    · exact SocketSet.get_set_self _ _ _

/-- Witness for C4 at a concrete socket whose outbound queue is empty. -/
theorem c4_witness :
    sock1.send_queue = 0 ∧
    ∃ st2, IcmpSocket.poll_flush ⟨0, Endpoint.Unspecified⟩ st1 3
      = some (Poll.Ready (), st2) :=
  ⟨rfl,
   (c4_flush_ready_iff_drained ⟨0, Endpoint.Unspecified⟩ st1 3 sock1 rfl).1
     rfl⟩

/-- Claim C5: with no inbound datagram queued (`Exhausted`), `poll_recv`
registers the current waker on the socket and returns `Pending`; the
condition is handled by suspension, not surfaced as an error. -/
theorem c5_exhausted_suspends
    (sock : IcmpSocket) (st : StackInner) (cap : Nat) (w : Waker)
    (s : icmp.Socket)
    (hs : SocketSet.get st.sockets sock.handle = some s)
    (hq : s.rx_queue = []) :
    ∃ st2, sock.poll_recv st cap w = some (Poll.Pending, st2) ∧
      SocketSet.get st2.sockets sock.handle
        = some (s.register_recv_waker w) := by
  refine ⟨{ st with
      sockets := SocketSet.set st.sockets sock.handle
        (s.register_recv_waker w),
      wake_count := st.wake_count + 1,
      access_count := st.access_count + 1 }, ?_, ?_⟩
  · simp [IcmpSocket.poll_recv, IcmpSocket.with_mut, hs, Stack.with_mut,
      icmp.Socket.recv_slice, hq]
  · exact SocketSet.get_set_self _ _ _

/-- Witness for C5 at a concrete socket with an empty inbound queue. -/
theorem c5_witness :
    sockE.rx_queue = [] ∧
    ∃ st2, IcmpSocket.poll_recv ⟨0, Endpoint.Unspecified⟩ stE 4 6
      = some (Poll.Pending, st2) ∧
      SocketSet.get st2.sockets 0 = some (sockE.register_recv_waker 6) :=
  ⟨rfl, c5_exhausted_suspends ⟨0, Endpoint.Unspecified⟩ stE 4 6 sockE rfl rfl⟩

/-- Claim C6: for an address+port endpoint with a resolvable address, a full
outbound store makes `poll_send` register the send waker and return
`Pending`, while a successful send returns `Ready ()` with the entire buffer
enqueued as one outbound datagram. -/
theorem c6_send_bufferfull_and_success
    (sock : IcmpSocket) (st : StackInner) (buf : List Nat) (w : Waker)
    (a : IpAddress) (p : Nat) (s : icmp.Socket)
    (he : sock.endpoint = Endpoint.Udp ⟨some a, p⟩)
    (hs : SocketSet.get st.sockets sock.handle = some s)
    (ha : st.iface.addressable a = true) :
    (s.tx_capacity ≤ s.tx_queue.length →
      ∃ st2, sock.poll_send st buf w = some (Poll.Pending, st2) ∧
        SocketSet.get st2.sockets sock.handle
          = some (s.register_send_waker w)) ∧
    (s.tx_queue.length < s.tx_capacity →
      ∃ st2, sock.poll_send st buf w = some (Poll.Ready (), st2) ∧
        SocketSet.get st2.sockets sock.handle
          = some { s with tx_queue := s.tx_queue ++ [⟨buf, a⟩] }) := by
  constructor
  · intro hfull
    refine ⟨{ st with
        sockets := SocketSet.set st.sockets sock.handle
          (s.register_send_waker w),
        wake_count := st.wake_count + 1,
        access_count := st.access_count + 1 }, ?_, ?_⟩
    · simp [IcmpSocket.poll_send, he, Endpoint.is_specified, resolve_dst,
        IcmpSocket.with_mut, hs, Stack.with_mut, icmp.Socket.send_slice, ha,
        hfull]
    · exact SocketSet.get_set_self _ _ _
  · intro hroom
    have hnofull : ¬ s.tx_capacity ≤ s.tx_queue.length := by omega
    refine ⟨{ st with
        sockets := SocketSet.set st.sockets sock.handle
          { s with tx_queue := s.tx_queue ++ [⟨buf, a⟩] },
        wake_count := st.wake_count + 1,
        access_count := st.access_count + 1 }, ?_, ?_⟩
    · simp [IcmpSocket.poll_send, he, Endpoint.is_specified, resolve_dst,
        IcmpSocket.with_mut, hs, Stack.with_mut, icmp.Socket.send_slice, ha,
        hnofull]
    · exact SocketSet.get_set_self _ _ _

/-- Witness for C6 at a concrete socket with room in the outbound store. -/
theorem c6_witness :
    sock1.tx_queue.length < sock1.tx_capacity ∧
    ∃ st2, IcmpSocket.poll_send ⟨0, Endpoint.Udp ⟨some 7, 1⟩⟩ st1 [9] 3
      = some (Poll.Ready (), st2) ∧
      SocketSet.get st2.sockets 0
        = some { sock1 with tx_queue := [⟨[9], 7⟩] } :=
  ⟨by decide,
   (c6_send_bufferfull_and_success ⟨0, Endpoint.Udp ⟨some 7, 1⟩⟩ st1 [9] 3 7 1
     sock1 rfl rfl rfl).2 (by decide)⟩

/-- Claim C7: dropping the adapter vacates exactly its own handle in the
registry — every other handle's slot is untouched — and does so inside a
single exclusive-access call. -/
theorem c7_drop_removes_own_handle (sock : IcmpSocket) (st : StackInner) :
    SocketSet.get (sock.drop st).sockets sock.handle = none ∧
    (∀ h2, h2 ≠ sock.handle →
      SocketSet.get (sock.drop st).sockets h2 = SocketSet.get st.sockets h2) ∧
    (sock.drop st).access_count = st.access_count + 1 := by
  refine ⟨?_, ?_, ?_⟩
  · simp [IcmpSocket.drop, Stack.with_mut, SocketSet.get, SocketSet.remove]
  · intro h2 hne
    simp [IcmpSocket.drop, Stack.with_mut, SocketSet.get, SocketSet.remove,
      hne]
  · simp [IcmpSocket.drop, Stack.with_mut]

/-- Witness for C7 at a concrete socket and state: handle 1 is untouched by
dropping the adapter holding handle 0. -/
theorem c7_witness :
    (1 : Nat) ≠ 0 ∧
    SocketSet.get (IcmpSocket.drop ⟨0, Endpoint.Unspecified⟩ st1).sockets 1
      = SocketSet.get st1.sockets 1 :=
  ⟨by decide,
   (c7_drop_removes_own_handle ⟨0, Endpoint.Unspecified⟩ st1).2.1 1
     (by decide)⟩

/-- Claim C8: `poll_recv` never returns `Ready (error Exhausted)` — although
the public error type has the variant, the `Exhausted` condition is always
mapped to `Pending`, so `Truncated` is the only observable receive error. -/
theorem c8_recv_never_returns_exhausted
    (sock : IcmpSocket) (st : StackInner) (cap : Nat) (w : Waker) :
    is_ready_exhausted (sock.poll_recv st cap w) = false := by
  unfold IcmpSocket.poll_recv IcmpSocket.with_mut
  cases hg : SocketSet.get st.sockets sock.handle with
  | none => rfl
  | some s =>
      cases hq : s.rx_queue with
      | nil =>
          simp [icmp.Socket.recv_slice, hq, Stack.with_mut,
            is_ready_exhausted]
      | cons d rest =>
          by_cases hfit : d.payload.length ≤ cap
          · simp [icmp.Socket.recv_slice, hq, hfit, Stack.with_mut,
              is_ready_exhausted]
          · simp [icmp.Socket.recv_slice, hq, hfit, Stack.with_mut,
              is_ready_exhausted]

/-- Claim C9: an identifier-only endpoint, or an address+port endpoint whose
address is absent, passes the is-specified check and then `poll_send` hits an
unfinished destination-resolution path (`todo!()` / `expect`), embedded as
the `none` (panic) outcome — neither suspension nor an error result. -/
theorem c9_ident_or_missing_addr_panics
    (sock : IcmpSocket) (st : StackInner) (buf : List Nat) (w : Waker)
    (h : (∃ i, sock.endpoint = Endpoint.Ident i) ∨
         (∃ p, sock.endpoint = Endpoint.Udp ⟨none, p⟩)) :
    sock.endpoint.is_specified = true ∧ sock.poll_send st buf w = none := by
  rcases h with ⟨i, hi⟩ | ⟨p, hp⟩
  · exact ⟨by rw [hi]; rfl,
      by simp [IcmpSocket.poll_send, hi, Endpoint.is_specified, resolve_dst]⟩
  · exact ⟨by rw [hp]; rfl,
      by simp [IcmpSocket.poll_send, hp, Endpoint.is_specified, resolve_dst]⟩

/-- Witness for C9 at a concrete identifier-only socket. -/
theorem c9_witness :
    (⟨0, Endpoint.Ident 5⟩ : IcmpSocket).endpoint = Endpoint.Ident 5 ∧
    Endpoint.is_specified (Endpoint.Ident 5) = true ∧
    IcmpSocket.poll_send ⟨0, Endpoint.Ident 5⟩ st1 [9] 3 = none :=
  ⟨rfl,
   c9_ident_or_missing_addr_panics ⟨0, Endpoint.Ident 5⟩ st1 [9] 3
     (Or.inl ⟨5, rfl⟩)⟩
